import Mathlib

/-!
# Verification of `Optional<T>` (src/optional.h)

A shallow embedding of the class template `Optional<T>`: a boolean discriminant
`mHasValue` next to an inline payload `mValue`.

* An object is the record of its two data members.
* A member function that writes members is a function from the object before the
  call to the object after it.  A function taking an rvalue reference also
  returns the state its argument is left in.
* Container-to-container assignment may be called with source and destination the
  same object; it is given on a store, where each statement reads and writes the
  store as it is at that statement.
* The external call `reportMessage(...)` is recorded in a trace of calls that is
  passed through the guarded accessor.
* Scenarios over several objects use the same store from addresses to objects.
-/

namespace SI

/-! ## The payload type `T` -/

/-- What the class template uses of its parameter `T`.  Copy construction and copy
assignment of a `T` yield a value equal to their argument, so they need no field.
`valueInit` is the value-initialised `T{}`; `movedFrom v` is the state a `T` holding
`v` is left in after `std::move` handed it to a move constructor or move assignment
of another object (the receiver gets `v`); `selfMoveAssigned v` is the state a `T`
holding `v` is left in by the move assignment to itself, `x = std::move(x)`;
`destroyed v` is the content of the storage after `~T()`. -/
class Payload (T : Type) where
  valueInit : T
  movedFrom : T → T
  selfMoveAssigned : T → T
  destroyed : T → T

/-- The payload `int`: value-initialised to zero, moving is copying, the destructor is
trivial. -/
instance instPayloadInt : Payload Int where
  valueInit := 0
  movedFrom := fun v => v
  selfMoveAssigned := fun v => v
  destroyed := fun v => v

/-- A payload with a real move constructor (a buffer in the manner of `std::vector`):
value-initialised empty, left empty when moved from or destroyed.  Its move assignment
has no self-check (as `std::vector` in libstdc++), so moving it to itself also leaves
it empty. -/
instance instPayloadList : Payload (List Nat) where
  valueInit := []
  movedFrom := fun _ => []
  selfMoveAssigned := fun _ => []
  destroyed := fun _ => []

/-- A payload with an instrumented destructor,
`struct Probe { unsigned destroyedTimes = 0; ~Probe() { ++destroyedTimes; } };`:
its storage records how many times `~Probe()` ran on it. -/
structure Probe where
  destroyedTimes : Nat
  deriving DecidableEq, Repr

/-- The payload `Probe`: value-initialised with a count of zero, copied when moved, and
each destructor call increments the `unsigned` count. -/
instance instPayloadProbe : Payload Probe where
  valueInit := { destroyedTimes := 0 }
  movedFrom := fun p => p
  selfMoveAssigned := fun p => p
  destroyed := fun p => { destroyedTimes := (p.destroyedTimes + 1) % 2 ^ 32 }

/-! ## The diagnostic facility -/

/-- One call of `reportMessage(message, level, component)`. -/
structure Report (SI_REPORT_LEVEL SI_REPORT_COMPONENT : Type) where
  message : String
  level : SI_REPORT_LEVEL
  component : SI_REPORT_COMPONENT
  deriving DecidableEq, Repr

/-- The names `value()` takes from outside the header: the string returned by
`SmartCharArray::getReportMessage()` and the two enumerators it passes on.  Their
declarations are not part of the header, so they are parameters here. -/
structure ReportEnv (SI_REPORT_LEVEL SI_REPORT_COMPONENT : Type) where
  getReportMessage : String
  CRITICAL : SI_REPORT_LEVEL
  SI_CORE_HELPER : SI_REPORT_COMPONENT

/-- Modelled from the spec: the body of `reportMessage` is not in the header.  The
facility "accepts the call ... and returns control to the caller"; the call is
recorded at the end of the trace of reports emitted so far. -/
def reportMessage {L C : Type} (message : String) (level : L) (component : C)
    (log : List (Report L C)) : List (Report L C) :=
  log ++ [⟨message, level, component⟩]

/-! ## The class -/

/-- The data members of `Optional<T>` (optional.h:206-208). -/
structure Optional (T : Type) where
  mHasValue : Bool
  mValue : T
  deriving DecidableEq, Repr

namespace Optional

variable {T : Type} [Payload T] {L C : Type}

/-- Default constructor `constexpr Optional() noexcept : mHasValue(false) {}`
(optional.h:15); `mValue` takes its default member initialiser `T mValue{}`
(optional.h:208). -/
def ctorDefault : Optional T :=
  { mHasValue := false, mValue := Payload.valueInit }

/-- Copy constructor (optional.h:25-26):
`Optional(Optional const& other) : mHasValue(other.mHasValue), mValue(other.mValue) {}`. -/
def ctorCopy (other : Optional T) : Optional T :=
  { mHasValue := other.mHasValue, mValue := other.mValue }

/-- Move constructor (optional.h:36-37):
`Optional(Optional&& other) : mHasValue(other.mHasValue), mValue(std::move(other.mValue)) {}`.
Returns the new object and `other` after the call. -/
def ctorMove (other : Optional T) : Optional T × Optional T :=
  ({ mHasValue := other.mHasValue, mValue := other.mValue },
   { other with mValue := Payload.movedFrom other.mValue })

/-- Value constructor, copy overload (optional.h:47-48):
`Optional(T const& val) : mHasValue(true), mValue(val) {}`. -/
def ctorValueCopy (val : T) : Optional T :=
  { mHasValue := true, mValue := val }

/-- Value constructor, move overload (optional.h:58-59):
`Optional(T&& val) : mHasValue(true), mValue(std::move(val)) {}`.
Returns the new object and `val` after the call. -/
def ctorValueMove (val : T) : Optional T × T :=
  ({ mHasValue := true, mValue := val }, Payload.movedFrom val)

/-- Copy assignment `operator=(Optional const& other)` (optional.h:69-70):
`mHasValue = other.mHasValue; if(mHasValue) mValue = other.mValue; return *this;` -/
def assignCopy (self other : Optional T) : Optional T :=
  let s1 := { self with mHasValue := other.mHasValue }
  if s1.mHasValue then { s1 with mValue := other.mValue } else s1

/-- Value assignment, copy overload `operator=(T const& val)` (optional.h:91-92):
`mValue = val; mHasValue = true; return *this;` -/
def assignValueCopy (self : Optional T) (val : T) : Optional T :=
  let s1 := { self with mValue := val }
  { s1 with mHasValue := true }

/-- Value assignment, move overload `operator=(T&& val)` (optional.h:102-103):
`mValue = std::move(val); mHasValue = true; return *this;`
Returns `*this` and `val` after the call. -/
def assignValueMove (self : Optional T) (val : T) : Optional T × T :=
  let s1 := { self with mValue := val }
  ({ s1 with mHasValue := true }, Payload.movedFrom val)

/-- Dereference `T& operator*() & noexcept { return mValue; }` (optional.h:112): the
payload the returned reference designates. -/
def deref (self : Optional T) : T := self.mValue

/-- Const dereference `constexpr const T& operator*() const& noexcept { return mValue; }`
(optional.h:121). -/
def derefConst (self : Optional T) : T := self.mValue

/-- Member access `T* operator->() noexcept { return &mValue; }` (optional.h:130): the
payload the returned pointer points to. -/
def arrow (self : Optional T) : T := self.mValue

/-- Const member access `constexpr const T* operator->() const noexcept { return &mValue; }`
(optional.h:139). -/
def arrowConst (self : Optional T) : T := self.mValue

/-- Getter `constexpr bool hasValue() const noexcept { return mHasValue; }`
(optional.h:157). -/
def hasValue (self : Optional T) : Bool := self.mHasValue

/-- Reset `void reset() { mValue.~T(); mHasValue = false; }` (optional.h:167). -/
def reset (self : Optional T) : Optional T :=
  let s1 := { self with mValue := Payload.destroyed self.mValue }
  { s1 with mHasValue := false }

/-- Guarded accessor `T& value() & noexcept` (optional.h:177-184): reports when `!mHasValue`, then
returns `mValue` in either case.  Returns the payload and the trace after the call. -/
def value (env : ReportEnv L C) (self : Optional T) (log : List (Report L C)) :
    T × List (Report L C) :=
  let log1 :=
    if !self.mHasValue then
      reportMessage (env.getReportMessage ++ "Optional::value() was called with undefined mValue!")
        env.CRITICAL env.SI_CORE_HELPER log
    else log
  (self.mValue, log1)

/-- Const guarded accessor `const T& value() const & noexcept` (optional.h:194-201):
the same body as `value`. -/
def valueConst (env : ReportEnv L C) (self : Optional T) (log : List (Report L C)) :
    T × List (Report L C) :=
  let log1 :=
    if !self.mHasValue then
      reportMessage (env.getReportMessage ++ "Optional::value() was called with undefined mValue!")
        env.CRITICAL env.SI_CORE_HELPER log
    else log
  (self.mValue, log1)

end Optional

/-! ## Calls of the observers on one object -/

/-- The member functions that read the container: `hasValue()`, the four dereference
operators and the two forms of `value()`. -/
inductive Observer where
  | hasValue
  | deref
  | derefConst
  | arrow
  | arrowConst
  | value
  | valueConst
  deriving DecidableEq, Repr

/-- What a call of an observer hands back: the discriminant, or the payload its
reference or pointer designates. -/
inductive Observed (T : Type) where
  | flag (b : Bool)
  | payload (v : T)
  deriving DecidableEq, Repr

/-- A program point with one container: the object and the trace of reports so far. -/
structure Config (T L C : Type) where
  obj : Optional T
  log : List (Report L C)

/-- One call of an observer: what it returns, and the object and trace after the call.
None of the seven bodies (optional.h:112, 121, 130, 139, 157, 177-184, 194-201) assigns
to `mHasValue` or `mValue`, so the object after the call is the object before it; only
the two forms of `value()` contain a `reportMessage` call. -/
def call {T : Type} [Payload T] {L C : Type} (env : ReportEnv L C) (f : Observer)
    (cfg : Config T L C) : Observed T × Config T L C :=
  match f with
  | .hasValue => (.flag cfg.obj.hasValue, cfg)
  | .deref => (.payload cfg.obj.deref, cfg)
  | .derefConst => (.payload cfg.obj.derefConst, cfg)
  | .arrow => (.payload cfg.obj.arrow, cfg)
  | .arrowConst => (.payload cfg.obj.arrowConst, cfg)
  | .value =>
      let r := Optional.value env cfg.obj cfg.log
      (.payload r.1, { cfg with log := r.2 })
  | .valueConst =>
      let r := Optional.valueConst env cfg.obj cfg.log
      (.payload r.1, { cfg with log := r.2 })

/-- The program point after `n` consecutive calls of the observer `f`. -/
def callN {T : Type} [Payload T] {L C : Type} (env : ReportEnv L C) (f : Observer) :
    Nat → Config T L C → Config T L C
  | 0, cfg => cfg
  | n + 1, cfg => callN env f n (call env f cfg).2

/-! ## Several objects: a store -/

/-- The objects of type `Optional<T>` alive in a program, by address. -/
abbrev Store (T : Type) := Nat → Optional T

namespace Store

variable {T : Type} [Payload T]

/-- The store with the object at address `p` replaced by `o`. -/
def write (st : Store T) (p : Nat) (o : Optional T) : Store T :=
  fun q => if q = p then o else st q

/-- Value construction at address `dst`: `Optional<T> dst(val);` with `val` an lvalue. -/
def constructValueAt (st : Store T) (dst : Nat) (val : T) : Store T :=
  st.write dst (Optional.ctorValueCopy val)

/-- Copy construction at address `dst` from the object at `src`: `Optional<T> dst(src);`. -/
def constructCopyAt (st : Store T) (dst src : Nat) : Store T :=
  st.write dst (Optional.ctorCopy (st src))

/-- Value assignment to the object at `dst`: `dst = val;` with `val` an lvalue. -/
def assignValueAt (st : Store T) (dst : Nat) (val : T) : Store T :=
  st.write dst ((st dst).assignValueCopy val)

/-- Copy assignment `dst = src;` between objects of the store, statement by statement
(optional.h:70): `mHasValue = other.mHasValue;` then `if(mHasValue) mValue = other.mValue;`.
Each read goes to the store as it is at that statement, so `dst` and `src` may be the
same address (self-assignment). -/
def assignCopyAt (st : Store T) (dst src : Nat) : Store T :=
  let st1 := st.write dst { st dst with mHasValue := (st src).mHasValue }
  if (st1 dst).mHasValue then
    st1.write dst { st1 dst with mValue := (st1 src).mValue }
  else
    st1

/-- Move assignment `dst = std::move(src);` between objects of the store, statement by
statement (optional.h:81): `mHasValue = other.mHasValue;` then
`if(mHasValue) mValue = std::move(other.mValue);`.  The body has no test for
`this == &other`.  The second statement is the move assignment of `T`: between two
objects the destination payload receives the source payload and the source payload is
left moved from; when `dst` and `src` are the same address it is the move assignment of
the payload to itself. -/
def assignMoveAt (st : Store T) (dst src : Nat) : Store T :=
  let st1 := st.write dst { st dst with mHasValue := (st src).mHasValue }
  if (st1 dst).mHasValue then
    if dst = src then
      st1.write dst { st1 dst with mValue := Payload.selfMoveAssigned (st1 dst).mValue }
    else
      (st1.write dst { st1 dst with mValue := (st1 src).mValue }).write src
        { st1 src with mValue := Payload.movedFrom (st1 src).mValue }
  else
    st1

end Store

/-! ## Concrete inputs -/

/-- A concrete environment for evaluating `value()`: severities and components are
written as their names. -/
def sampleEnv : ReportEnv String String :=
  { getReportMessage := "[ctx] ", CRITICAL := "CRITICAL", SI_CORE_HELPER := "SI_CORE_HELPER" }

/-- An `Optional<int>` that was occupied with `7` and then assigned from an empty
container: `Optional<int> a(7); Optional<int> e; a = e;`. -/
def staleEmpty : Optional Int :=
  Optional.assignCopy (Optional.ctorValueCopy 7) Optional.ctorDefault

/-- A store in which every address holds a default-constructed `Optional<int>`. -/
def emptyStore : Store Int := fun _ => Optional.ctorDefault

/-- An occupied `Optional<Probe>` whose payload was never destroyed:
`Optional<Probe> c(Probe{});`. -/
def probeOccupied : Optional Probe :=
  Optional.ctorValueCopy { destroyedTimes := 0 }

/-- A store holding `Optional<int>(7)` at address 0 and `staleEmpty` at address 1. -/
def sampleStore : Store Int :=
  (emptyStore.write 0 (Optional.ctorValueCopy 7)).write 1 staleEmpty

/-- A store of `Optional<std::vector<unsigned>>`: address 0 holds the occupied `a` of
`Optional<std::vector<unsigned>> a(std::vector<unsigned>{1, 2, 3});`, address 1 an
occupied container holding `{4}`, every other address a default-constructed one. -/
def bufferStore : Store (List Nat) :=
  Store.write (Store.write (fun _ => Optional.ctorDefault) 0 (Optional.ctorValueCopy [1, 2, 3]))
    1 (Optional.ctorValueCopy [4])

/-! ## Theorems -/

open Optional

/-- C1: a container built by value construction from `v`, by the copy overload or the
move overload, reports `hasValue() = true`, and `operator*` and `operator->` in their
mutable and const forms all yield `v`. -/
theorem C1_value_construction {T : Type} [Payload T] (v : T) :
    (ctorValueCopy v).hasValue = true
    ∧ (ctorValueCopy v).deref = v ∧ (ctorValueCopy v).derefConst = v
    ∧ (ctorValueCopy v).arrow = v ∧ (ctorValueCopy v).arrowConst = v
    ∧ (ctorValueMove v).1.hasValue = true
    ∧ (ctorValueMove v).1.deref = v ∧ (ctorValueMove v).1.derefConst = v
    ∧ (ctorValueMove v).1.arrow = v ∧ (ctorValueMove v).1.arrowConst = v :=
  ⟨rfl, rfl, rfl, rfl, rfl, rfl, rfl, rfl, rfl, rfl⟩

/-- The result of `value()` on an empty container: the stored payload, and the trace
extended by the one report the body builds. -/
theorem value_of_empty {T : Type} [Payload T] {L C : Type} (env : ReportEnv L C)
    (o : Optional T) (log : List (Report L C)) (h : o.hasValue = false) :
    value env o log =
      (o.mValue,
       log ++ [⟨env.getReportMessage ++ "Optional::value() was called with undefined mValue!",
                env.CRITICAL, env.SI_CORE_HELPER⟩]) := by
  have hm : o.mHasValue = false := h
  simp only [value, reportMessage, hm, Bool.not_false, if_true]

/-- The result of `value() const` on an empty container. -/
theorem valueConst_of_empty {T : Type} [Payload T] {L C : Type} (env : ReportEnv L C)
    (o : Optional T) (log : List (Report L C)) (h : o.hasValue = false) :
    valueConst env o log =
      (o.mValue,
       log ++ [⟨env.getReportMessage ++ "Optional::value() was called with undefined mValue!",
                env.CRITICAL, env.SI_CORE_HELPER⟩]) := by
  have hm : o.mHasValue = false := h
  simp only [valueConst, reportMessage, hm, Bool.not_false, if_true]

/-- The result of `value()` on an occupied container: the stored payload and the trace
as it was. -/
theorem value_of_occupied {T : Type} [Payload T] {L C : Type} (env : ReportEnv L C)
    (o : Optional T) (log : List (Report L C)) (h : o.hasValue = true) :
    value env o log = (o.mValue, log) := by
  have hm : o.mHasValue = true := h
  simp [value, hm]

/-- The result of `value() const` on an occupied container. -/
theorem valueConst_of_occupied {T : Type} [Payload T] {L C : Type} (env : ReportEnv L C)
    (o : Optional T) (log : List (Report L C)) (h : o.hasValue = true) :
    valueConst env o log = (o.mValue, log) := by
  have hm : o.mHasValue = true := h
  simp [valueConst, hm]

/-- C2: on an empty container, whatever payload it stores, one call of `value()` (mutable
or const form) appends exactly one report to the trace, that report has severity
`CRITICAL` and component `SI_CORE_HELPER`, and the call returns the stored payload. -/
theorem C2_value_on_empty {T : Type} [Payload T] {L C : Type} (env : ReportEnv L C)
    (o : Optional T) (log : List (Report L C)) (h : o.hasValue = false) :
    (∃ r : Report L C, (value env o log).2 = log ++ [r]
        ∧ r.level = env.CRITICAL ∧ r.component = env.SI_CORE_HELPER)
    ∧ (value env o log).1 = o.mValue
    ∧ (∃ r : Report L C, (valueConst env o log).2 = log ++ [r]
        ∧ r.level = env.CRITICAL ∧ r.component = env.SI_CORE_HELPER)
    ∧ (valueConst env o log).1 = o.mValue := by
  refine ⟨⟨_, congrArg Prod.snd (value_of_empty env o log h), rfl, rfl⟩,
    congrArg Prod.fst (value_of_empty env o log h),
    ⟨_, congrArg Prod.snd (valueConst_of_empty env o log h), rfl, rfl⟩,
    congrArg Prod.fst (valueConst_of_empty env o log h)⟩

/-- Witness of C2 on `staleEmpty`, an empty `Optional<int>` that still stores `7`. -/
theorem C2_value_on_empty_witness :
    staleEmpty.hasValue = false
    ∧ ((∃ r : Report String String, (value sampleEnv staleEmpty []).2 = [] ++ [r]
        ∧ r.level = sampleEnv.CRITICAL ∧ r.component = sampleEnv.SI_CORE_HELPER)
      ∧ (value sampleEnv staleEmpty []).1 = staleEmpty.mValue
      ∧ (∃ r : Report String String, (valueConst sampleEnv staleEmpty []).2 = [] ++ [r]
        ∧ r.level = sampleEnv.CRITICAL ∧ r.component = sampleEnv.SI_CORE_HELPER)
      ∧ (valueConst sampleEnv staleEmpty []).1 = staleEmpty.mValue) :=
  ⟨rfl, C2_value_on_empty sampleEnv staleEmpty [] rfl⟩

/-- C3: on an occupied container holding `v`, `value()` (mutable or const form) leaves
the trace of reports as it was and returns `v`. -/
theorem C3_value_on_occupied {T : Type} [Payload T] {L C : Type} (env : ReportEnv L C)
    (o : Optional T) (v : T) (log : List (Report L C))
    (h : o.hasValue = true) (hv : o.deref = v) :
    value env o log = (v, log) ∧ valueConst env o log = (v, log) := by
  have hp : o.mValue = v := hv
  rw [value_of_occupied env o log h, valueConst_of_occupied env o log h, hp]
  exact ⟨rfl, rfl⟩

/-- Witness of C3 on `Optional<int>(7)` with one earlier report in the trace. -/
theorem C3_value_on_occupied_witness :
    (ctorValueCopy (7 : Int)).hasValue = true ∧ (ctorValueCopy (7 : Int)).deref = 7
    ∧ value sampleEnv (ctorValueCopy (7 : Int)) [⟨"earlier", "INFO", "OTHER"⟩]
        = (7, [⟨"earlier", "INFO", "OTHER"⟩])
    ∧ valueConst sampleEnv (ctorValueCopy (7 : Int)) [⟨"earlier", "INFO", "OTHER"⟩]
        = (7, [⟨"earlier", "INFO", "OTHER"⟩]) :=
  ⟨rfl, rfl, C3_value_on_occupied sampleEnv (ctorValueCopy 7) 7 _ rfl rfl⟩

/-- C4, as stated, fails for the move overload when source and destination are the same
object: `Optional<std::vector<unsigned>> a(std::vector<unsigned>{1, 2, 3}); a = std::move(a);`
leaves `a` occupied, as the source was, but with an empty payload, not the payload
`{1, 2, 3}` the source held. -/
theorem C4_counterexample :
    (bufferStore 0).hasValue = true
    ∧ (bufferStore 0).mValue = [1, 2, 3]
    ∧ ((bufferStore.assignMoveAt 0 0) 0).hasValue = true
    ∧ ((bufferStore.assignMoveAt 0 0) 0).mValue = []
    ∧ ((bufferStore.assignMoveAt 0 0) 0).mValue ≠ (bufferStore 0).mValue := by
  decide

/-- The destination of a copy assignment on the store is `assignCopy` of the two objects
as they were, also when source and destination are the same object. -/
theorem assignCopyAt_dst {T : Type} [Payload T] (st : Store T) (dst src : Nat) :
    (st.assignCopyAt dst src) dst = assignCopy (st dst) (st src) := by
  by_cases hsd : src = dst
  · subst hsd
    rcases hst : st src with ⟨b, v⟩
    cases b <;> simp [Store.assignCopyAt, Store.write, assignCopy, hst]
  · cases hb : (st src).mHasValue <;>
      simp [Store.assignCopyAt, Store.write, assignCopy, hb, hsd]

/-- The destination of a move assignment between two different objects: it takes the
discriminant of the source, and the payload of the source when that is occupied. -/
theorem assignMoveAt_dst {T : Type} [Payload T] (st : Store T) (dst src : Nat)
    (hne : dst ≠ src) :
    (st.assignMoveAt dst src) dst =
      { mHasValue := (st src).mHasValue,
        mValue := if (st src).mHasValue then (st src).mValue else (st dst).mValue } := by
  have hsd : ¬ src = dst := fun h => hne h.symm
  cases hb : (st src).mHasValue <;>
    simp [Store.assignMoveAt, Store.write, hb, hsd, hne]

/-- The object of a move assignment to itself: the discriminant stays, and the payload of
an occupied object is left as the self-move-assignment of `T` leaves it. -/
theorem assignMoveAt_self {T : Type} [Payload T] (st : Store T) (p : Nat) :
    (st.assignMoveAt p p) p =
      { mHasValue := (st p).mHasValue,
        mValue := if (st p).mHasValue then Payload.selfMoveAssigned (st p).mValue
                  else (st p).mValue } := by
  rcases hst : st p with ⟨b, v⟩
  cases b <;> simp [Store.assignMoveAt, Store.write, hst]

/-- C4, amended: copy assignment `d = s`, also when `s` is `d` itself, and move assignment
`d = std::move(s)` when `s` is an object other than `d`, leave `d` with `hasValue()`
equal to `s.hasValue()`; when `s` is occupied the payload of `d` becomes the payload `s`
held, when `s` is empty the payload of `d` is the one it held before.  Move assignment
of an object to itself leaves its `hasValue()` as it was, leaves the payload of an empty
object as it was, and leaves the payload of an occupied object as the
self-move-assignment of `T` leaves it. -/
theorem C4_container_assignment {T : Type} [Payload T] (st : Store T) (dst src : Nat) :
    (((st.assignCopyAt dst src) dst).hasValue = (st src).hasValue
      ∧ ((st src).hasValue = true → ((st.assignCopyAt dst src) dst).mValue = (st src).mValue)
      ∧ ((st src).hasValue = false → ((st.assignCopyAt dst src) dst).mValue = (st dst).mValue))
    ∧ (dst ≠ src →
        ((st.assignMoveAt dst src) dst).hasValue = (st src).hasValue
        ∧ ((st src).hasValue = true →
            ((st.assignMoveAt dst src) dst).mValue = (st src).mValue)
        ∧ ((st src).hasValue = false →
            ((st.assignMoveAt dst src) dst).mValue = (st dst).mValue))
    ∧ (((st.assignMoveAt dst dst) dst).hasValue = (st dst).hasValue
      ∧ ((st dst).hasValue = false →
          ((st.assignMoveAt dst dst) dst).mValue = (st dst).mValue)
      ∧ ((st dst).hasValue = true →
          ((st.assignMoveAt dst dst) dst).mValue
            = Payload.selfMoveAssigned (st dst).mValue)) := by
  refine ⟨?_, fun hne => ?_, ?_⟩
  · rw [assignCopyAt_dst]
    cases hs : (st src).mHasValue <;> simp [assignCopy, hasValue, hs]
  · rw [assignMoveAt_dst st dst src hne]
    cases hs : (st src).mHasValue <;> simp [hasValue, hs]
  · rw [assignMoveAt_self]
    cases hs : (st dst).mHasValue <;> simp [hasValue, hs]

/-- Witness of the amended C4 on `bufferStore`: the occupied object 1 and the empty
object 2 assigned to object 0 by copy and by move, the copy assignment of object 0 to
itself, and the move assignment of the empty object 2 to itself. -/
theorem C4_container_assignment_witness :
    ((bufferStore.assignCopyAt 0 1) 0).mValue = [4]
    ∧ ((bufferStore.assignCopyAt 0 2) 0).hasValue = false
    ∧ ((bufferStore.assignCopyAt 0 2) 0).mValue = [1, 2, 3]
    ∧ ((bufferStore.assignCopyAt 0 0) 0).mValue = [1, 2, 3]
    ∧ ((0 : Nat) ≠ 1 ∧ ((bufferStore.assignMoveAt 0 1) 0).hasValue = true
        ∧ ((bufferStore.assignMoveAt 0 1) 0).mValue = [4])
    ∧ ((0 : Nat) ≠ 2 ∧ ((bufferStore.assignMoveAt 0 2) 0).hasValue = false
        ∧ ((bufferStore.assignMoveAt 0 2) 0).mValue = [1, 2, 3])
    ∧ ((bufferStore.assignMoveAt 2 2) 2).mValue = []
    ∧ ((bufferStore.assignMoveAt 0 0) 0).mValue = [] :=
  ⟨(C4_container_assignment bufferStore 0 1).1.2.1 rfl,
   (C4_container_assignment bufferStore 0 2).1.1,
   (C4_container_assignment bufferStore 0 2).1.2.2 rfl,
   (C4_container_assignment bufferStore 0 0).1.2.1 rfl,
   ⟨by decide, ((C4_container_assignment bufferStore 0 1).2.1 (by decide)).1,
    ((C4_container_assignment bufferStore 0 1).2.1 (by decide)).2.1 rfl⟩,
   ⟨by decide, ((C4_container_assignment bufferStore 0 2).2.1 (by decide)).1,
    ((C4_container_assignment bufferStore 0 2).2.1 (by decide)).2.2 rfl⟩,
   (C4_container_assignment bufferStore 2 2).2.2.2.1 rfl,
   (C4_container_assignment bufferStore 0 0).2.2.2.2 rfl⟩

/-- C6: the container copy-constructed at a fresh address `dst` from the object at `src`
has the same `hasValue()` as the source; when the source is occupied its payload is the
payload of the source; the source object is unchanged. -/
theorem C6_copy_construction {T : Type} [Payload T] (st : Store T) (dst src : Nat)
    (hfresh : dst ≠ src) :
    ((st.constructCopyAt dst src) dst).hasValue = (st src).hasValue
    ∧ ((st src).hasValue = true → ((st.constructCopyAt dst src) dst).mValue = (st src).mValue)
    ∧ (st.constructCopyAt dst src) src = st src := by
  have hne : ¬ src = dst := fun h => hfresh h.symm
  refine ⟨?_, ?_, ?_⟩
  · simp [Store.constructCopyAt, Store.write, ctorCopy, hasValue]
  · intro _
    simp [Store.constructCopyAt, Store.write, ctorCopy]
  · simp [Store.constructCopyAt, Store.write, hne]

/-- Witness of C6: `Optional<int> a(7); Optional<int> b(a);` with `a` at address 0 and
`b` at address 1. -/
theorem C6_copy_construction_witness :
    (1 : Nat) ≠ 0
    ∧ (((emptyStore.constructValueAt 0 7).constructCopyAt 1 0) 1).hasValue = true
    ∧ (((emptyStore.constructValueAt 0 7).constructCopyAt 1 0) 1).mValue = 7
    ∧ ((emptyStore.constructValueAt 0 7).constructCopyAt 1 0) 0
        = (emptyStore.constructValueAt 0 7) 0 :=
  ⟨by decide,
   (C6_copy_construction (emptyStore.constructValueAt 0 7) 1 0 (by decide)).1,
   (C6_copy_construction (emptyStore.constructValueAt 0 7) 1 0 (by decide)).2.1 rfl,
   (C6_copy_construction (emptyStore.constructValueAt 0 7) 1 0 (by decide)).2.2⟩

/-- C7, as stated, fails: `staleEmpty` (`Optional<int> a(7); Optional<int> e; a = e;`)
is empty and still stores `7`; the containers copy-constructed and move-constructed
from it store `7`, not the value-initialised `int{}` = `0`. -/
theorem C7_counterexample :
    staleEmpty.hasValue = false
    ∧ (ctorCopy staleEmpty).mValue = 7
    ∧ (ctorMove staleEmpty).1.mValue = 7
    ∧ (ctorCopy staleEmpty).mValue ≠ (Payload.valueInit : Int)
    ∧ (ctorMove staleEmpty).1.mValue ≠ (Payload.valueInit : Int) := by
  decide

/-- C7, amended: the container copy-constructed or move-constructed from an empty source
is empty and stores the payload the source stored when the constructor was called; so
it stores the value-initialised `T{}` when the source stored `T{}`. -/
theorem C7_empty_source_payload {T : Type} [Payload T] (s : Optional T)
    (h : s.hasValue = false) :
    (ctorCopy s).hasValue = false ∧ (ctorMove s).1.hasValue = false
    ∧ (ctorCopy s).mValue = s.mValue
    ∧ (ctorMove s).1.mValue = s.mValue
    ∧ (s.mValue = Payload.valueInit →
        (ctorCopy s).mValue = Payload.valueInit ∧ (ctorMove s).1.mValue = Payload.valueInit) :=
  ⟨h, h, rfl, rfl, fun hv => ⟨hv, hv⟩⟩

/-- Witness of the amended C7: on `staleEmpty` the new containers store `7`; on a
default-constructed `Optional<int>` they store `0`. -/
theorem C7_empty_source_payload_witness :
    (staleEmpty.hasValue = false
      ∧ (ctorCopy staleEmpty).mValue = 7 ∧ (ctorMove staleEmpty).1.mValue = 7)
    ∧ ((ctorDefault : Optional Int).hasValue = false
      ∧ (ctorCopy (ctorDefault : Optional Int)).mValue = 0
      ∧ (ctorMove (ctorDefault : Optional Int)).1.mValue = 0) :=
  ⟨⟨rfl, (C7_empty_source_payload staleEmpty rfl).2.2.1,
    (C7_empty_source_payload staleEmpty rfl).2.2.2.1⟩,
   rfl, (C7_empty_source_payload (ctorDefault : Optional Int) rfl).2.2.2.2 rfl⟩

/-- C8: copy construction gives an independent copy.  With `a` constructed from `v` at
address `pa` and `b` copy-constructed from `a` at another address `pb`: after `a = w`
the object `b` is still occupied and dereferences to `v`, and after `b = w` instead the
object `a` is still occupied and dereferences to `v`. -/
theorem C8_copy_is_independent {T : Type} [Payload T] (st : Store T) (pa pb : Nat)
    (v w : T) (hdistinct : pa ≠ pb) :
    ((((st.constructValueAt pa v).constructCopyAt pb pa).assignValueAt pa w) pb).hasValue = true
    ∧ ((((st.constructValueAt pa v).constructCopyAt pb pa).assignValueAt pa w) pb).deref = v
    ∧ ((((st.constructValueAt pa v).constructCopyAt pb pa).assignValueAt pb w) pa).hasValue = true
    ∧ ((((st.constructValueAt pa v).constructCopyAt pb pa).assignValueAt pb w) pa).deref = v := by
  have hne : ¬ pb = pa := fun h => hdistinct h.symm
  simp [Store.constructValueAt, Store.constructCopyAt, Store.assignValueAt, Store.write,
    ctorValueCopy, ctorCopy, assignValueCopy, hasValue, deref, hne, hdistinct]

/-- Witness of C8, the scenario of the specification: `Optional<int> a(7);
Optional<int> b(a); a = 9;` leaves `*b == 7` (and `a` holds `9`). -/
theorem C8_copy_is_independent_witness :
    (0 : Nat) ≠ 1
    ∧ ((((emptyStore.constructValueAt 0 7).constructCopyAt 1 0).assignValueAt 0 9) 1).hasValue
        = true
    ∧ ((((emptyStore.constructValueAt 0 7).constructCopyAt 1 0).assignValueAt 0 9) 1).deref = 7
    ∧ ((((emptyStore.constructValueAt 0 7).constructCopyAt 1 0).assignValueAt 0 9) 0).deref = 9 :=
  ⟨by decide,
   (C8_copy_is_independent emptyStore 0 1 7 9 (by decide)).1,
   (C8_copy_is_independent emptyStore 0 1 7 9 (by decide)).2.1,
   rfl⟩

/-- C9: the container move-constructed from `s` has the `hasValue()` that `s` had, and
the move leaves the discriminant of `s` as it was: an occupied source still reports
`hasValue() = true` after being moved from. -/
theorem C9_move_construction {T : Type} [Payload T] (s : Optional T) :
    (ctorMove s).1.hasValue = s.hasValue
    ∧ (ctorMove s).2.hasValue = s.hasValue
    ∧ (s.hasValue = true → (ctorMove s).2.hasValue = true) :=
  ⟨rfl, rfl, fun h => h⟩

/-- Witness of C9 on a buffer payload: the source moved from keeps `hasValue() = true`
while its payload was emptied by the move. -/
theorem C9_move_construction_witness :
    (ctorValueCopy [1, 2, 3]).hasValue = true
    ∧ (ctorMove (ctorValueCopy [1, 2, 3])).1.hasValue = true
    ∧ (ctorMove (ctorValueCopy [1, 2, 3])).2.hasValue = true
    ∧ (ctorMove (ctorValueCopy [1, 2, 3])).2.mValue = [] :=
  ⟨rfl, (C9_move_construction (ctorValueCopy [1, 2, 3])).1,
   (C9_move_construction (ctorValueCopy [1, 2, 3])).2.2 rfl, rfl⟩

/-- C10: a default-constructed container reports `hasValue() = false` and its payload is
the value-initialised `T{}`. -/
theorem C10_default_construction {T : Type} [Payload T] :
    (ctorDefault : Optional T).hasValue = false
    ∧ (ctorDefault : Optional T).mValue = Payload.valueInit :=
  ⟨rfl, rfl⟩

/-- C11: after `reset()` an occupied container reports `hasValue() = false`. -/
theorem C11_reset_clears_discriminant {T : Type} [Payload T] (o : Optional T)
    (h : o.hasValue = true) :
    (reset o).hasValue = false ∧ (reset o).hasValue ≠ o.hasValue := by
  refine ⟨rfl, ?_⟩
  rw [h]
  exact Bool.false_ne_true

/-- Witness of C11 on `Optional<int>(7)`. -/
theorem C11_reset_clears_discriminant_witness :
    (ctorValueCopy (7 : Int)).hasValue = true
    ∧ (reset (ctorValueCopy (7 : Int))).hasValue = false :=
  ⟨rfl, (C11_reset_clears_discriminant (ctorValueCopy (7 : Int)) rfl).1⟩

/-- C12 at `Optional<Probe> c(Probe{}); c.reset(); c.reset();`: both after one and after
two calls `hasValue()` is false, but `reset()` runs `~Probe()` on every call, so the
payload storage records one destruction after the first call and two after the second:
the state after two resets is not the state after one. -/
theorem C12_reset_twice_on_probe :
    (reset probeOccupied).hasValue = false
    ∧ (reset (reset probeOccupied)).hasValue = false
    ∧ (reset probeOccupied).mValue = { destroyedTimes := 1 }
    ∧ (reset (reset probeOccupied)).mValue = { destroyedTimes := 2 }
    ∧ reset (reset probeOccupied) ≠ reset probeOccupied := by
  decide

/-- C13: the life cycle of one container, for every value `v`.  Default-constructed it
reports `hasValue() = false`; after value assignment of `v` (either overload) it reports
true and dereferences to `v`; after `reset()` it reports false; a following `value()`
appends exactly one report, of severity `CRITICAL` and component `SI_CORE_HELPER`. -/
theorem C13_life_cycle {T : Type} [Payload T] {L C : Type} (env : ReportEnv L C) (v : T)
    (log : List (Report L C)) :
    (ctorDefault : Optional T).hasValue = false
    ∧ (assignValueCopy ctorDefault v).hasValue = true
    ∧ (assignValueCopy ctorDefault v).deref = v
    ∧ (assignValueMove ctorDefault v).1.hasValue = true
    ∧ (assignValueMove ctorDefault v).1.deref = v
    ∧ (reset (assignValueCopy ctorDefault v)).hasValue = false
    ∧ (reset (assignValueMove ctorDefault v).1).hasValue = false
    ∧ (∃ r : Report L C,
        (value env (reset (assignValueCopy ctorDefault v)) log).2 = log ++ [r]
        ∧ r.level = env.CRITICAL ∧ r.component = env.SI_CORE_HELPER)
    ∧ (∃ r : Report L C,
        (value env (reset (assignValueMove ctorDefault v).1) log).2 = log ++ [r]
        ∧ r.level = env.CRITICAL ∧ r.component = env.SI_CORE_HELPER) :=
  ⟨rfl, rfl, rfl, rfl, rfl, rfl, rfl,
   ⟨_, congrArg Prod.snd (value_of_empty env (reset (assignValueCopy ctorDefault v)) log rfl),
    rfl, rfl⟩,
   ⟨_, congrArg Prod.snd (value_of_empty env (reset (assignValueMove ctorDefault v).1) log rfl),
    rfl, rfl⟩⟩

/-- Witness of C13, the scenario of the specification on `Optional<int>` with `v = 5`
and an empty trace: the trace after the last step holds one report. -/
theorem C13_life_cycle_witness :
    (ctorDefault : Optional Int).hasValue = false
    ∧ (assignValueCopy (ctorDefault : Optional Int) 5).hasValue = true
    ∧ (assignValueCopy (ctorDefault : Optional Int) 5).deref = 5
    ∧ (reset (assignValueCopy (ctorDefault : Optional Int) 5)).hasValue = false
    ∧ (∃ r : Report String String,
        (value sampleEnv (reset (assignValueCopy (ctorDefault : Optional Int) 5)) []).2
          = [] ++ [r]
        ∧ r.level = sampleEnv.CRITICAL ∧ r.component = sampleEnv.SI_CORE_HELPER) :=
  ⟨(C13_life_cycle sampleEnv (5 : Int) []).1,
   (C13_life_cycle sampleEnv (5 : Int) []).2.1,
   (C13_life_cycle sampleEnv (5 : Int) []).2.2.1,
   (C13_life_cycle sampleEnv (5 : Int) []).2.2.2.2.2.1,
   (C13_life_cycle sampleEnv (5 : Int) []).2.2.2.2.2.2.2.1⟩

/-- A call of one of the four dereference operators returns the stored payload and
leaves object and trace as they were. -/
theorem call_dereference {T : Type} [Payload T] {L C : Type} (env : ReportEnv L C)
    (f : Observer) (cfg : Config T L C)
    (hf : f = .deref ∨ f = .derefConst ∨ f = .arrow ∨ f = .arrowConst) :
    call env f cfg = (.payload cfg.obj.mValue, cfg) := by
  rcases hf with h | h | h | h <;> subst h <;> rfl

/-- The trace after one call of an observer: it differs from the trace before exactly
when the container is empty and the observer is one of the two forms of `value()`. -/
theorem call_log_changes_iff {T : Type} [Payload T] {L C : Type} (env : ReportEnv L C)
    (f : Observer) (cfg : Config T L C) :
    (call env f cfg).2.log ≠ cfg.log
      ↔ cfg.obj.hasValue = false ∧ (f = .value ∨ f = .valueConst) := by
  cases hb : cfg.obj.mHasValue <;> cases f <;>
    simp [call, Optional.value, Optional.valueConst, reportMessage, hasValue, hb]

/-- C14: the raw dereference operations perform no detection.  On every container, empty
or occupied, `operator*` and `operator->` (mutable and const forms) return the stored
payload and leave the trace of reports as it was; among all observers a call changes
the trace exactly when it is `value()` (either form) on an empty container. -/
theorem C14_dereference_reports_nothing {T : Type} [Payload T] {L C : Type}
    (env : ReportEnv L C) (o : Optional T) (log : List (Report L C)) :
    (∀ f : Observer, (f = .deref ∨ f = .derefConst ∨ f = .arrow ∨ f = .arrowConst) →
        (call env f ⟨o, log⟩).1 = .payload o.mValue ∧ (call env f ⟨o, log⟩).2.log = log)
    ∧ (∀ f : Observer, (call env f ⟨o, log⟩).2.log ≠ log
        ↔ o.hasValue = false ∧ (f = .value ∨ f = .valueConst)) := by
  refine ⟨fun f hf => ?_, fun f => call_log_changes_iff env f ⟨o, log⟩⟩
  rw [call_dereference env f ⟨o, log⟩ hf]
  exact ⟨rfl, rfl⟩

/-- Witness of C14 on the empty `staleEmpty`: `operator*` returns the stale `7` and the
trace stays empty, while `value()` changes the trace. -/
theorem C14_dereference_reports_nothing_witness :
    ((call sampleEnv .deref ⟨staleEmpty, []⟩).1 = .payload 7
      ∧ (call sampleEnv .deref ⟨staleEmpty, []⟩).2.log = [])
    ∧ (call sampleEnv .value ⟨staleEmpty, []⟩).2.log ≠ [] :=
  ⟨(C14_dereference_reports_nothing sampleEnv staleEmpty []).1 .deref (Or.inl rfl),
   ((C14_dereference_reports_nothing sampleEnv staleEmpty []).2 .value).2 ⟨rfl, Or.inl rfl⟩⟩

/-- C15: on an empty container the message of the report emitted by `value()`, in the
mutable and in the const form, is the string returned by
`SmartCharArray::getReportMessage()` followed by the text
"Optional::value() was called with undefined mValue!". -/
theorem C15_report_message {T : Type} [Payload T] {L C : Type} (env : ReportEnv L C)
    (o : Optional T) (log : List (Report L C)) (h : o.hasValue = false) :
    (∃ r : Report L C, (value env o log).2 = log ++ [r]
        ∧ r.message
          = env.getReportMessage ++ "Optional::value() was called with undefined mValue!")
    ∧ (∃ r : Report L C, (valueConst env o log).2 = log ++ [r]
        ∧ r.message
          = env.getReportMessage ++ "Optional::value() was called with undefined mValue!") :=
  ⟨⟨_, congrArg Prod.snd (value_of_empty env o log h), rfl⟩,
   ⟨_, congrArg Prod.snd (valueConst_of_empty env o log h), rfl⟩⟩

/-- Witness of C15 on a default-constructed `Optional<int>` with the context string
"[ctx] ". -/
theorem C15_report_message_witness :
    (ctorDefault : Optional Int).hasValue = false
    ∧ sampleEnv.getReportMessage = "[ctx] "
    ∧ ((∃ r : Report String String,
          (value sampleEnv (ctorDefault : Optional Int) []).2 = [] ++ [r]
          ∧ r.message = sampleEnv.getReportMessage
              ++ "Optional::value() was called with undefined mValue!")
      ∧ (∃ r : Report String String,
          (valueConst sampleEnv (ctorDefault : Optional Int) []).2 = [] ++ [r]
          ∧ r.message = sampleEnv.getReportMessage
              ++ "Optional::value() was called with undefined mValue!")) :=
  ⟨rfl, rfl, C15_report_message sampleEnv (ctorDefault : Optional Int) [] rfl⟩

/-- Any number of consecutive calls of one observer leaves the object as it was. -/
theorem callN_obj {T : Type} [Payload T] {L C : Type} (env : ReportEnv L C) (f : Observer)
    (n : Nat) (cfg : Config T L C) : (callN env f n cfg).obj = cfg.obj := by
  induction n generalizing cfg with
  | zero => rfl
  | succ k ih =>
    rw [callN, ih]
    cases f <;> rfl

/-- On an empty container `n` consecutive calls of `value()` append `n` copies of the
report and leave the object as it was. -/
theorem callN_value_of_empty {T : Type} [Payload T] {L C : Type} (env : ReportEnv L C)
    (o : Optional T) (h : o.hasValue = false) (n : Nat) (log : List (Report L C)) :
    callN env .value n ⟨o, log⟩ =
      ⟨o, log ++ List.replicate n
        ⟨env.getReportMessage ++ "Optional::value() was called with undefined mValue!",
          env.CRITICAL, env.SI_CORE_HELPER⟩⟩ := by
  induction n generalizing log with
  | zero => simp [callN]
  | succ k ih =>
    simp only [callN, call, value_of_empty env o log h]
    rw [ih]
    simp [List.replicate_succ]

/-- On an empty container `n` consecutive calls of `value() const` append `n` copies of
the report and leave the object as it was. -/
theorem callN_valueConst_of_empty {T : Type} [Payload T] {L C : Type} (env : ReportEnv L C)
    (o : Optional T) (h : o.hasValue = false) (n : Nat) (log : List (Report L C)) :
    callN env .valueConst n ⟨o, log⟩ =
      ⟨o, log ++ List.replicate n
        ⟨env.getReportMessage ++ "Optional::value() was called with undefined mValue!",
          env.CRITICAL, env.SI_CORE_HELPER⟩⟩ := by
  induction n generalizing log with
  | zero => simp [callN]
  | succ k ih =>
    simp only [callN, call, valueConst_of_empty env o log h]
    rw [ih]
    simp [List.replicate_succ]

/-- C16: the observers do not change the container.  One call, and any number of
consecutive calls, of `hasValue()`, `operator*`, `operator->` or `value()` leaves the
discriminant and the payload as they were.  On an empty container `n` consecutive calls
of `value()` (either form) emit exactly `n` reports and `hasValue()` is still false. -/
theorem C16_observers_keep_container {T : Type} [Payload T] {L C : Type}
    (env : ReportEnv L C) (o : Optional T) (log : List (Report L C)) :
    (∀ f : Observer, (call env f ⟨o, log⟩).2.obj.mHasValue = o.mHasValue
        ∧ (call env f ⟨o, log⟩).2.obj.mValue = o.mValue)
    ∧ (∀ (f : Observer) (n : Nat), (callN env f n ⟨o, log⟩).obj = o)
    ∧ (o.hasValue = false → ∀ n : Nat,
        (callN env .value n ⟨o, log⟩).obj.hasValue = false
        ∧ (callN env .value n ⟨o, log⟩).log.length = log.length + n
        ∧ (callN env .value n ⟨o, log⟩).log = log ++ List.replicate n
            ⟨env.getReportMessage ++ "Optional::value() was called with undefined mValue!",
              env.CRITICAL, env.SI_CORE_HELPER⟩
        ∧ (callN env .valueConst n ⟨o, log⟩).obj.hasValue = false
        ∧ (callN env .valueConst n ⟨o, log⟩).log.length = log.length + n) := by
  refine ⟨fun f => ?_, fun f n => callN_obj env f n ⟨o, log⟩, fun h n => ?_⟩
  · cases f <;> exact ⟨rfl, rfl⟩
  · rw [callN_value_of_empty env o h n log, callN_valueConst_of_empty env o h n log]
    simp [h]

/-- Witness of C16: three consecutive calls of `value()` on the empty `staleEmpty`,
starting from an empty trace, leave three reports and `hasValue()` false. -/
theorem C16_observers_keep_container_witness :
    staleEmpty.hasValue = false
    ∧ (callN sampleEnv .value 3 ⟨staleEmpty, []⟩).obj.hasValue = false
    ∧ (callN sampleEnv .value 3 ⟨staleEmpty, []⟩).log.length = 3
    ∧ (callN sampleEnv .value 3 ⟨staleEmpty, []⟩).obj = staleEmpty :=
  ⟨rfl,
   ((C16_observers_keep_container sampleEnv staleEmpty []).2.2 rfl 3).1,
   ((C16_observers_keep_container sampleEnv staleEmpty []).2.2 rfl 3).2.1,
   (C16_observers_keep_container sampleEnv staleEmpty []).2.1 .value 3⟩

/-- C17: copy construction from `s` and default construction followed by copy assignment
from `s` agree on what a caller may observe.  Both results have `hasValue()` equal to
`s.hasValue()`; when `s` is occupied both hold the payload of `s` and the two results
are equal; two results that differ are both empty. -/
theorem C17_copy_construct_vs_assign {T : Type} [Payload T] (s : Optional T) :
    (ctorCopy s).hasValue = s.hasValue
    ∧ (assignCopy ctorDefault s).hasValue = s.hasValue
    ∧ (s.hasValue = true →
        (ctorCopy s).mValue = s.mValue ∧ (assignCopy ctorDefault s).mValue = s.mValue
        ∧ ctorCopy s = assignCopy ctorDefault s)
    ∧ (ctorCopy s ≠ assignCopy ctorDefault s →
        (ctorCopy s).hasValue = false ∧ (assignCopy ctorDefault s).hasValue = false) := by
  cases hs : s.mHasValue <;> simp [ctorCopy, assignCopy, ctorDefault, hasValue, hs]

/-- Witness of C17: from `Optional<int>(7)` the two results are equal; from `staleEmpty`
both are empty, the copy-constructed one storing `7` and the assigned one `0`. -/
theorem C17_copy_construct_vs_assign_witness :
    ((ctorValueCopy (7 : Int)).hasValue = true
      ∧ (ctorCopy (ctorValueCopy (7 : Int))).mValue = 7
      ∧ (assignCopy ctorDefault (ctorValueCopy (7 : Int))).mValue = 7
      ∧ ctorCopy (ctorValueCopy (7 : Int)) = assignCopy ctorDefault (ctorValueCopy (7 : Int)))
    ∧ (ctorCopy staleEmpty ≠ assignCopy ctorDefault staleEmpty
      ∧ (ctorCopy staleEmpty).mValue = 7
      ∧ (assignCopy ctorDefault staleEmpty).mValue = 0
      ∧ (ctorCopy staleEmpty).hasValue = false
      ∧ (assignCopy ctorDefault staleEmpty).hasValue = false) :=
  ⟨⟨rfl, (C17_copy_construct_vs_assign (ctorValueCopy (7 : Int))).2.2.1 rfl⟩,
   by decide, rfl, rfl,
   (C17_copy_construct_vs_assign staleEmpty).2.2.2 (by decide)⟩

/-- C18: copy assignment is the identity on equal states.  Assigning to `c` a container
with the discriminant and payload of `c` leaves `c` as it was, and the self-assignment
`c = c` of an object of a store leaves the whole store as it was. -/
theorem C18_self_assignment {T : Type} [Payload T] (c : Optional T) :
    (∀ c2 : Optional T, c2.mHasValue = c.mHasValue → c2.mValue = c.mValue →
        (assignCopy c c2).mHasValue = c.mHasValue ∧ (assignCopy c c2).mValue = c.mValue)
    ∧ assignCopy c c = c
    ∧ (∀ (st : Store T) (p : Nat), st p = c → st.assignCopyAt p p = st) := by
  refine ⟨fun c2 hb hv => ?_, ?_, fun st p hp => ?_⟩
  · cases hc : c.mHasValue <;> simp [assignCopy, hb, hv, hc]
  · obtain ⟨b, v⟩ := c
    cases b <;> rfl
  · funext q
    subst hp
    by_cases hq : q = p
    · subst hq
      rcases hst : st q with ⟨b, v⟩
      cases b <;> simp [Store.assignCopyAt, Store.write, hst]
    · rcases hst : st p with ⟨b, v⟩
      cases b <;> simp [Store.assignCopyAt, Store.write, hst, hq]

/-- Witness of C18 on `sampleStore`: self-assignment of the occupied object at address
0 and of the empty object at address 1. -/
theorem C18_self_assignment_witness :
    (assignCopy (ctorValueCopy (7 : Int)) (ctorValueCopy 7)).mValue = 7
    ∧ sampleStore.assignCopyAt 0 0 = sampleStore
    ∧ sampleStore.assignCopyAt 1 1 = sampleStore
    ∧ assignCopy staleEmpty staleEmpty = staleEmpty :=
  ⟨((C18_self_assignment (ctorValueCopy (7 : Int))).1 (ctorValueCopy 7) rfl rfl).2,
   (C18_self_assignment (ctorValueCopy (7 : Int))).2.2 sampleStore 0 rfl,
   (C18_self_assignment staleEmpty).2.2 sampleStore 1 rfl,
   (C18_self_assignment staleEmpty).2.1⟩

/-- C19: the mutable and const forms of each accessor are equivalent.  On every
container and trace `value() &` and `value() const &` return the same payload and leave
the same trace, and the two forms of `operator*` and of `operator->` all designate the
same payload. -/
theorem C19_const_forms_agree {T : Type} [Payload T] {L C : Type} (env : ReportEnv L C)
    (o : Optional T) (log : List (Report L C)) :
    (value env o log).1 = (valueConst env o log).1
    ∧ (value env o log).2 = (valueConst env o log).2
    ∧ call env .value ⟨o, log⟩ = call env .valueConst ⟨o, log⟩
    ∧ o.deref = o.derefConst
    ∧ o.arrow = o.arrowConst
    ∧ o.deref = o.arrow
    ∧ o.derefConst = o.arrowConst :=
  ⟨rfl, rfl, rfl, rfl, rfl, rfl, rfl⟩

end SI
